import Mathlib

/-!
Shallow embedding of `src/seir_streamlit_app.py`, a Streamlit SEIR(D)
epidemic simulation.  The script reads eight widget-bound inputs
(lines 38-45), computes the initial compartment state (lines 47-52),
defines the pure derivative function `seir_model` (lines 54-61), invokes
`scipy.integrate.solve_ivp` over `[0, days]` sampled at
`np.arange(0, days, 1)` (line 64), and reports `int(max(I))` and
`int(D[-1])` (lines 84-85).

Python floats are modelled as exact rationals (`ℚ`) for the executable
part; trajectory-level statements about the continuous ODE solution are
stated over `ℝ` through the predicate `IsSEIRSolution`.
-/

/-- The closed-over run constants of one simulation run:
`N`, `beta`, `sigma`, `gamma`, `fatality_rate` (source lines 38-42,
with `sigma = 1/incubation_days` and `gamma = 1/infectious_days`). -/
structure Params (α : Type) where
  N : α
  beta : α
  sigma : α
  gamma : α
  fatality_rate : α
deriving DecidableEq

/-- A state vector `y = (S, E, I, R, D)` (source line 55 unpacking). -/
structure SState (α : Type) where
  S : α
  E : α
  I : α
  R : α
  D : α
deriving DecidableEq

/-- Source lines 54-61: the derivative function handed to `solve_ivp`.
`t` is accepted and ignored, exactly as in the source. -/
def seir_model {α : Type} [Field α] (p : Params α) (t : α) (y : SState α) :
    SState α :=
  { S := -p.beta * y.S * y.I / p.N
    E := p.beta * y.S * y.I / p.N - p.sigma * y.E
    I := p.sigma * y.E - p.gamma * y.I
    R := p.gamma * (1 - p.fatality_rate) * y.I
    D := p.gamma * p.fatality_rate * y.I }

/-- Sum of the five compartments of a state vector. -/
def totalPop {α : Type} [Field α] (y : SState α) : α :=
  y.S + y.E + y.I + y.R + y.D

/-- The eight raw widget inputs of the script (source lines 38-45),
before `sigma` and `gamma` are derived from the two period sliders. -/
structure RawInputs where
  N : ℤ
  beta : ℚ
  incubation_days : ℤ
  infectious_days : ℤ
  fatality_rate : ℚ
  initial_infected : ℤ
  initial_exposed : ℤ
  days : ℤ
deriving DecidableEq

/-- The admissible ranges enforced by the input widgets themselves
(source lines 38-45: `min_value` / `max_value` of each widget). -/
def widgetRange (i : RawInputs) : Prop :=
  1000 ≤ i.N ∧ i.N ≤ 10000000 ∧
  (1 : ℚ)/10 ≤ i.beta ∧ i.beta ≤ 1 ∧
  1 ≤ i.incubation_days ∧ i.incubation_days ≤ 14 ∧
  1 ≤ i.infectious_days ∧ i.infectious_days ≤ 21 ∧
  0 ≤ i.fatality_rate ∧ i.fatality_rate ≤ 1/10 ∧
  1 ≤ i.initial_infected ∧ i.initial_infected ≤ 1000 ∧
  1 ≤ i.initial_exposed ∧ i.initial_exposed ≤ 1000 ∧
  30 ≤ i.days ∧ i.days ≤ 365

instance (i : RawInputs) : Decidable (widgetRange i) := by
  unfold widgetRange; infer_instance

/-- Source lines 47-52: `S0 = N - initial_infected - initial_exposed`,
`E0 = initial_exposed`, `I0 = initial_infected`, `R0 = 0`, `D0 = 0`. -/
def initialState (i : RawInputs) : SState ℚ :=
  { S := (i.N : ℚ) - (i.initial_infected : ℚ) - (i.initial_exposed : ℚ)
    E := (i.initial_exposed : ℚ)
    I := (i.initial_infected : ℚ)
    R := 0
    D := 0 }

/-- The run constants derived from the raw inputs (source lines 38-42):
`sigma = 1 / incubation_days`, `gamma = 1 / infectious_days`. -/
def runParams (i : RawInputs) : Params ℚ :=
  { N := (i.N : ℚ)
    beta := i.beta
    sigma := 1 / (i.incubation_days : ℚ)
    gamma := 1 / (i.infectious_days : ℚ)
    fatality_rate := i.fatality_rate }

/-- Source lines 47-64: after the widgets, the script computes the
initial conditions and immediately invokes `solve_ivp`.  There is no
parameter validation and no `InvalidParameterError` (or any exception)
anywhere in the source, so the entry never fails: it always proceeds to
the solver with the initial state.  `none` (failure yielding no
trajectory) is unreachable. -/
def simulationEntry (i : RawInputs) : Option (SState ℚ) :=
  some (initialState i)

/-- Source line 64: `np.arange(0, days, 1)`, the requested output
sample times `0, 1, ..., days - 1`. -/
def t_eval (days : ℕ) : List ℕ :=
  List.range days

/-- The sampled output of the `solve_ivp` call: `sol.t` and `sol.y`
(transposed to one state per sample), source lines 64-66. -/
structure IvpResult where
  t : List ℕ
  y : List (SState ℚ)

/-- Model of the documented output contract of the library call
`scipy.integrate.solve_ivp(seir_model, [0, days], y0, t_eval = t_eval)`
at source line 64: `sol.t` is exactly the requested `t_eval` grid, the
states are aligned by index to the times, and the sample at the initial
time `t0 = 0` (the first grid point whenever `days ≥ 1`) is exactly the
supplied initial state. -/
def SolveIvpOutput (days : ℕ) (y0 : SState ℚ) (res : IvpResult) : Prop :=
  res.t = t_eval days ∧
  res.y.length = res.t.length ∧
  (0 < days → res.y.head? = some y0)

/-- Python's built-in `max` over a sequence (source line 84): a left
fold of binary `max` over the elements, erroring (`none`) on an empty
sequence. -/
def npMax : List ℚ → Option ℚ
  | [] => none
  | a :: l => some (l.foldl max a)

/-- Python's `int(·)` applied to a (here exact-rational) float:
truncation toward zero. -/
def pyInt (q : ℚ) : ℤ :=
  if q < 0 then -Int.floor (-q) else Int.floor q

/-- The two reported summary scalars (source lines 84-85). -/
structure Summary where
  peak_infected : ℤ
  total_deaths : ℤ
deriving DecidableEq

/-- Source lines 84-85: `int(max(I))` and `int(D[-1])`, defined only
when both sequences are non-empty. -/
def summarize (Ivals Dvals : List ℚ) : Option Summary :=
  match npMax Ivals, Dvals.getLast? with
  | some m, some d => some { peak_infected := pyInt m, total_deaths := pyInt d }
  | _, _ => none

/-- `(S, E, I, R, D) : ℝ → ℝ` is an exact solution of the ODE system
defined by `seir_model` with run constants `p`: at every time each
component has the derivative that `seir_model` returns at the current
state. -/
def IsSEIRSolution (p : Params ℝ) (S E I R D : ℝ → ℝ) : Prop :=
  ∀ t : ℝ,
    HasDerivAt S ((seir_model p t ⟨S t, E t, I t, R t, D t⟩).S) t ∧
    HasDerivAt E ((seir_model p t ⟨S t, E t, I t, R t, D t⟩).E) t ∧
    HasDerivAt I ((seir_model p t ⟨S t, E t, I t, R t, D t⟩).I) t ∧
    HasDerivAt R ((seir_model p t ⟨S t, E t, I t, R t, D t⟩).R) t ∧
    HasDerivAt D ((seir_model p t ⟨S t, E t, I t, R t, D t⟩).D) t

/-- The default inputs of the app with all widgets at their `value`
arguments (source lines 38-45). -/
def defaultInputs : RawInputs :=
  { N := 1000000, beta := 3/10, incubation_days := 5, infectious_days := 10
    fatality_rate := 1/50, initial_infected := 10, initial_exposed := 5
    days := 180 }

/-- In-range inputs whose initial infected plus initial exposed exceed
the total population: `N = 1000` (the widget minimum) with
`initial_infected = initial_exposed = 1000` (the widget maxima). -/
def overflowInputs : RawInputs :=
  { N := 1000, beta := 3/10, incubation_days := 5, infectious_days := 10
    fatality_rate := 1/50, initial_infected := 1000, initial_exposed := 1000
    days := 180 }

/-- Run constants for the no-transmission counterexample:
`N = 1000`, `beta = 0`, `sigma = 1`, `gamma = 0`, `fatality_rate = 0`. -/
def pNoTransmission : Params ℝ :=
  { N := 1000, beta := 0, sigma := 1, gamma := 0, fatality_rate := 0 }

/-- Exposed compartment of an explicit `beta = 0` run: `E(t) = 5·e^(-t)`
(initial exposed 5, `sigma = 1`). -/
noncomputable def expE (t : ℝ) : ℝ := 5 * Real.exp (-t)

/-- Infected compartment of the same run: `I(t) = 15 - 5·e^(-t)`
(initial infected 10, `gamma = 0`): strictly increasing with limit 15. -/
noncomputable def expI (t : ℝ) : ℝ := 15 - 5 * Real.exp (-t)

section Helpers

/-- The five components returned by `seir_model` sum to zero. -/
theorem totalPop_seir_model {α : Type} [Field α] (p : Params α) (t : α)
    (y : SState α) : totalPop (seir_model p t y) = 0 := by
  simp only [seir_model, totalPop]
  ring

/-- Every constant state of the form `(c, 0, 0, r, d)` (no exposed, no
infected) is an exact solution for arbitrary run constants. -/
theorem isSEIRSolution_const (p : Params ℝ) (c r d : ℝ) :
    IsSEIRSolution p (fun _ => c) (fun _ => 0) (fun _ => 0)
      (fun _ => r) (fun _ => d) := by
  intro t
  refine ⟨?_, ?_, ?_, ?_, ?_⟩ <;>
    simpa [seir_model] using hasDerivAt_const t _

theorem le_foldl_max (l : List ℚ) (a : ℚ) : a ≤ l.foldl max a := by
  induction l generalizing a with
  | nil => exact le_refl a
  | cons b t ih => exact le_trans (le_max_left a b) (ih (max a b))

theorem foldl_max_mem (l : List ℚ) (a : ℚ) :
    l.foldl max a = a ∨ l.foldl max a ∈ l := by
  induction l generalizing a with
  | nil => exact Or.inl rfl
  | cons b t ih =>
    rcases ih (max a b) with h | h
    · rcases max_choice a b with hab | hab
      · exact Or.inl (by rw [List.foldl_cons, h, hab])
      · exact Or.inr (by rw [List.foldl_cons, h, hab]; exact List.mem_cons_self b t)
    · exact Or.inr (List.mem_cons_of_mem b h)

theorem mem_le_foldl_max (l : List ℚ) (a x : ℚ) (hx : x ∈ l) :
    x ≤ l.foldl max a := by
  induction l generalizing a with
  | nil => cases hx
  | cons b t ih =>
    rcases List.mem_cons.mp hx with rfl | hxt
    · exact le_trans (le_max_right a x) (le_foldl_max t (max a x))
    · exact ih (max a b) hxt

/-- `npMax` returns an element of the list that bounds every element. -/
theorem npMax_spec (l : List ℚ) (m : ℚ) (h : npMax l = some m) :
    m ∈ l ∧ ∀ x ∈ l, x ≤ m := by
  cases l with
  | nil => cases h
  | cons a t =>
    have hm : t.foldl max a = m := by simpa [npMax] using h
    constructor
    · rcases foldl_max_mem t a with h0 | h0
      · rw [← hm, h0]; exact List.mem_cons_self a t
      · rw [← hm]; exact List.mem_cons_of_mem a h0
    · intro x hx
      rcases List.mem_cons.mp hx with rfl | hxt
      · rw [← hm]; exact le_foldl_max t x
      · rw [← hm]; exact mem_le_foldl_max t a x hxt

end Helpers

/-- Claim C1: for every state vector `y = (S, E, I, R, D)` and every
time `t`, `seir_model` returns exactly the derivative vector
`(-beta*S*I/N, beta*S*I/N - sigma*E, sigma*E - gamma*I,
gamma*(1-fatality_rate)*I, gamma*fatality_rate*I)` built from the
closed-over run constants. -/
theorem seir_model_formula :
    ∀ (p : Params ℚ) (t : ℚ) (y : SState ℚ),
      seir_model p t y =
        { S := -p.beta * y.S * y.I / p.N
          E := p.beta * y.S * y.I / p.N - p.sigma * y.E
          I := p.sigma * y.E - p.gamma * y.I
          R := p.gamma * (1 - p.fatality_rate) * y.I
          D := p.gamma * p.fatality_rate * y.I } :=
  fun _ _ _ => rfl

/-- Claim C6: the initial state vector has `I(0) = initial_infected`,
`E(0) = initial_exposed`, `R(0) = D(0) = 0`, and
`S(0) = N - initial_infected - initial_exposed`, so the five initial
components sum exactly to `N`. -/
theorem initialState_formula (i : RawInputs) :
    (initialState i).I = (i.initial_infected : ℚ) ∧
    (initialState i).E = (i.initial_exposed : ℚ) ∧
    (initialState i).R = 0 ∧
    (initialState i).D = 0 ∧
    (initialState i).S =
      (i.N : ℚ) - (i.initial_infected : ℚ) - (i.initial_exposed : ℚ) ∧
    totalPop (initialState i) = (i.N : ℚ) := by
  refine ⟨rfl, rfl, rfl, rfl, rfl, ?_⟩
  simp only [initialState, totalPop]
  ring

/-- Claim C9: `seir_model` does not read `t`, `R` or `D`: two calls at
arbitrary times whose states agree on the `S`, `E`, `I` components
return identical derivative vectors. -/
theorem seir_model_noninterference (p : Params ℚ) (t1 t2 : ℚ)
    (y1 y2 : SState ℚ) (hS : y1.S = y2.S) (hE : y1.E = y2.E)
    (hI : y1.I = y2.I) :
    seir_model p t1 y1 = seir_model p t2 y2 := by
  simp only [seir_model, hS, hE, hI]

/-- Witness for C9 at concrete inputs: states differing in `R`, `D`
and the time still yield the same derivative vector. -/
theorem seir_model_noninterference_witness :
    seir_model (Params.mk 1000 (3/10) (1/5) (1/10) (1/50) : Params ℚ) 0
        (SState.mk 900 50 30 15 5) =
      seir_model (Params.mk 1000 (3/10) (1/5) (1/10) (1/50) : Params ℚ) 42
        (SState.mk 900 50 30 999 888) :=
  seir_model_noninterference _ 0 42 _ _ rfl rfl rfl

/-- Claim C2: the five components of every derivative returned by
`seir_model` sum to exactly zero, and consequently along every exact
solution of the system the total population `S+E+I+R+D` stays equal to
its initial value `N` at every time (so in particular at every sampled
time of a trajectory). -/
theorem seir_conservation :
    (∀ (p : Params ℚ) (t : ℚ) (y : SState ℚ),
      totalPop (seir_model p t y) = 0) ∧
    (∀ (p : Params ℝ) (S E I R D : ℝ → ℝ), IsSEIRSolution p S E I R D →
      S 0 + E 0 + I 0 + R 0 + D 0 = p.N →
      ∀ t, S t + E t + I t + R t + D t = p.N) := by
  constructor
  · intro p t y
    exact totalPop_seir_model p t y
  · intro p S E I R D hsol h0 t
    have hW : ∀ u : ℝ,
        HasDerivAt (fun v => S v + E v + I v + R v + D v) 0 u := by
      intro u
      have h := ((((hsol u).1.add (hsol u).2.1).add (hsol u).2.2.1).add
        (hsol u).2.2.2.1).add (hsol u).2.2.2.2
      have hz : (seir_model p u ⟨S u, E u, I u, R u, D u⟩).S +
          (seir_model p u ⟨S u, E u, I u, R u, D u⟩).E +
          (seir_model p u ⟨S u, E u, I u, R u, D u⟩).I +
          (seir_model p u ⟨S u, E u, I u, R u, D u⟩).R +
          (seir_model p u ⟨S u, E u, I u, R u, D u⟩).D = 0 := by
        simpa [totalPop] using
          totalPop_seir_model p u ⟨S u, E u, I u, R u, D u⟩
      rwa [hz] at h
    have hconst :=
      is_const_of_deriv_eq_zero (f := fun v => S v + E v + I v + R v + D v)
        (fun u => (hW u).differentiableAt) (fun u => (hW u).deriv)
    have h1 := hconst t 0
    simp only at h1
    rw [h1, h0]

/-- Witness for C2: the derivative components sum to zero at the
default parameters, and the disease-free constant run conserves its
population `N = 1000000` at time 7. -/
theorem seir_conservation_witness :
    totalPop (seir_model (Params.mk 1000000 (3/10) (1/5) (1/10) (1/50) : Params ℚ)
        0 (SState.mk 999985 5 10 0 0)) = 0 ∧
    (fun _ : ℝ => (1000000 : ℝ)) 7 + (fun _ : ℝ => (0 : ℝ)) 7 +
        (fun _ : ℝ => (0 : ℝ)) 7 + (fun _ : ℝ => (0 : ℝ)) 7 +
        (fun _ : ℝ => (0 : ℝ)) 7 =
      (Params.mk 1000000 (3/10) (1/5) (1/10) (1/50) : Params ℝ).N :=
  ⟨seir_conservation.1 _ 0 _,
   seir_conservation.2 _ _ _ _ _ _ (isSEIRSolution_const _ 1000000 0 0)
     (by norm_num) 7⟩

/-- Claim C7: with non-negative `beta`, `gamma`, `fatality_rate`,
positive `N`, and non-negative `S` and `I`, the `D`-component of the
derivative `gamma*fatality_rate*I` is non-negative and the
`S`-component `-beta*S*I/N` is non-positive; consequently along every
exact solution with pointwise non-negative `S` and `I`, `D` is
non-decreasing and `S` is non-increasing. -/
theorem seir_monotonicity :
    (∀ (p : Params ℝ) (t : ℝ) (y : SState ℝ),
      0 ≤ p.beta → 0 ≤ p.gamma → 0 ≤ p.fatality_rate → 0 < p.N →
      0 ≤ y.S → 0 ≤ y.I →
      0 ≤ (seir_model p t y).D ∧ (seir_model p t y).S ≤ 0) ∧
    (∀ (p : Params ℝ) (S E I R D : ℝ → ℝ), IsSEIRSolution p S E I R D →
      0 ≤ p.beta → 0 ≤ p.gamma → 0 ≤ p.fatality_rate → 0 < p.N →
      (∀ t, 0 ≤ S t) → (∀ t, 0 ≤ I t) →
      Monotone D ∧ Antitone S) := by
  constructor
  · intro p t y hb hg hf hN hS hI
    constructor
    · show 0 ≤ p.gamma * p.fatality_rate * y.I
      exact mul_nonneg (mul_nonneg hg hf) hI
    · show -p.beta * y.S * y.I / p.N ≤ 0
      have h1 : 0 ≤ p.beta * y.S * y.I / p.N :=
        div_nonneg (mul_nonneg (mul_nonneg hb hS) hI) (le_of_lt hN)
      have h2 : -p.beta * y.S * y.I / p.N = -(p.beta * y.S * y.I / p.N) := by
        ring
      rw [h2]
      exact neg_nonpos.mpr h1
  · intro p S E I R D hsol hb hg hf hN hS hI
    constructor
    · apply monotone_of_deriv_nonneg
      · intro t
        exact ((hsol t).2.2.2.2).differentiableAt
      · intro t
        rw [((hsol t).2.2.2.2).deriv]
        show 0 ≤ p.gamma * p.fatality_rate * I t
        exact mul_nonneg (mul_nonneg hg hf) (hI t)
    · apply antitone_of_deriv_nonpos
      · intro t
        exact ((hsol t).1).differentiableAt
      · intro t
        rw [((hsol t).1).deriv]
        show -p.beta * S t * I t / p.N ≤ 0
        have h1 : 0 ≤ p.beta * S t * I t / p.N :=
          div_nonneg (mul_nonneg (mul_nonneg hb (hS t)) (hI t)) (le_of_lt hN)
        have h2 : -p.beta * S t * I t / p.N = -(p.beta * S t * I t / p.N) := by
          ring
        rw [h2]
        exact neg_nonpos.mpr h1

/-- Witness for C7: concrete derivative signs at the default rates,
and monotone `D` / antitone `S` along a concrete constant run. -/
theorem seir_monotonicity_witness :
    (0 ≤ (seir_model (Params.mk 1000 (3/10) (1/5) (1/10) (1/50) : Params ℝ) 0
        (SState.mk 900 50 30 15 5)).D ∧
      (seir_model (Params.mk 1000 (3/10) (1/5) (1/10) (1/50) : Params ℝ) 0
        (SState.mk 900 50 30 15 5)).S ≤ 0) ∧
    (Monotone (fun _ : ℝ => (100 : ℝ)) ∧ Antitone (fun _ : ℝ => (800 : ℝ))) :=
  ⟨seir_monotonicity.1 _ 0 _ (by norm_num) (by norm_num) (by norm_num)
      (by norm_num) (by norm_num) (by norm_num),
   seir_monotonicity.2 (Params.mk 1000 (3/10) (1/5) (1/10) (1/50) : Params ℝ)
     _ _ _ _ _
     (isSEIRSolution_const (Params.mk 1000 (3/10) (1/5) (1/10) (1/50) : Params ℝ)
       800 100 100)
     (by norm_num) (by norm_num) (by norm_num) (by norm_num)
     (fun _ => by norm_num) (fun _ => by norm_num)⟩

/-- Claim C8 (amended): if `beta = 0` the `S`-component of every
derivative returned by `seir_model` is identically zero, so `S` stays
constant at `S(0)` along every exact solution; along every exact
solution `E(t) = E(0)·exp(-sigma·t)`, hence `E` is non-increasing
whenever `sigma ≥ 0` and `E` is pointwise non-negative, and `E`
approaches 0 as `t` grows whenever `sigma > 0`.  (`I` need not be
non-increasing and need not approach 0; see the counterexample.) -/
theorem seir_beta_zero (p : Params ℝ) (hb : p.beta = 0) :
    (∀ (t : ℝ) (y : SState ℝ), (seir_model p t y).S = 0) ∧
    (∀ S E I R D : ℝ → ℝ, IsSEIRSolution p S E I R D →
      (∀ t, S t = S 0) ∧
      (∀ t, E t = E 0 * Real.exp (-p.sigma * t)) ∧
      (0 ≤ p.sigma → (∀ t, 0 ≤ E t) → Antitone E) ∧
      (0 < p.sigma → Filter.Tendsto E Filter.atTop (nhds 0))) := by
  have hSform : ∀ (t : ℝ) (y : SState ℝ), (seir_model p t y).S = 0 := by
    intro t y
    show -p.beta * y.S * y.I / p.N = 0
    rw [hb]
    ring
  refine ⟨hSform, ?_⟩
  intro S E I R D hsol
  have hEd : ∀ u : ℝ, HasDerivAt E (-(p.sigma * E u)) u := by
    intro u
    have h := (hsol u).2.1
    have he : (seir_model p u ⟨S u, E u, I u, R u, D u⟩).E =
        -(p.sigma * E u) := by
      show p.beta * S u * I u / p.N - p.sigma * E u = -(p.sigma * E u)
      rw [hb]
      ring
    rwa [he] at h
  have hform : ∀ t, E t = E 0 * Real.exp (-p.sigma * t) := by
    have hg : ∀ u : ℝ,
        HasDerivAt (fun v => E v * Real.exp (p.sigma * v)) 0 u := by
      intro u
      have hlin : HasDerivAt (fun v : ℝ => p.sigma * v) (p.sigma * 1) u :=
        (hasDerivAt_id u).const_mul p.sigma
      have hexp : HasDerivAt (fun v : ℝ => Real.exp (p.sigma * v))
          (Real.exp (p.sigma * u) * (p.sigma * 1)) u := hlin.exp
      have h := (hEd u).mul hexp
      convert h using 1
      ring
    have hgconst :=
      is_const_of_deriv_eq_zero (f := fun v => E v * Real.exp (p.sigma * v))
        (fun u => (hg u).differentiableAt) (fun u => (hg u).deriv)
    intro t
    have h1 := hgconst t 0
    simp only [mul_zero, Real.exp_zero, mul_one] at h1
    have h2 : -p.sigma * t = -(p.sigma * t) := by ring
    rw [h2, Real.exp_neg, eq_mul_inv_iff_mul_eq₀ (Real.exp_ne_zero _)]
    exact h1
  refine ⟨?_, hform, ?_, ?_⟩
  · have hSd : ∀ u : ℝ, HasDerivAt S 0 u := by
      intro u
      have h := (hsol u).1
      rwa [hSform u _] at h
    have hc :=
      is_const_of_deriv_eq_zero (f := S)
        (fun u => (hSd u).differentiableAt) (fun u => (hSd u).deriv)
    intro t
    exact hc t 0
  · intro hs hEnn
    apply antitone_of_deriv_nonpos
    · intro u
      exact (hEd u).differentiableAt
    · intro u
      rw [(hEd u).deriv]
      exact neg_nonpos.mpr (mul_nonneg hs (hEnn u))
  · intro hs
    have h1 : Filter.Tendsto (fun t : ℝ => p.sigma * t)
        Filter.atTop Filter.atTop :=
      Filter.Tendsto.const_mul_atTop hs Filter.tendsto_id
    have h2 : Filter.Tendsto (fun t : ℝ => -(p.sigma * t))
        Filter.atTop Filter.atBot :=
      Filter.tendsto_neg_atTop_atBot.comp h1
    have h3 : Filter.Tendsto (fun t : ℝ => Real.exp (-(p.sigma * t)))
        Filter.atTop (nhds 0) := Real.tendsto_exp_atBot.comp h2
    have h4 := h3.const_mul (E 0)
    rw [mul_zero] at h4
    refine Filter.Tendsto.congr (fun t => ?_) h4
    rw [hform t]
    ring_nf

/-- Witness for C8 (amended) at a concrete `beta = 0` parameter set and
the constant disease-free run `(985, 0, 0, 10, 5)`. -/
theorem seir_beta_zero_witness :
    (seir_model (Params.mk 1000 0 (1/5) (1/10) 0 : Params ℝ) 3
      (SState.mk 1 2 3 4 5)).S = 0 ∧
    (fun _ : ℝ => (985 : ℝ)) 7 = (fun _ : ℝ => (985 : ℝ)) 0 ∧
    (fun _ : ℝ => (0 : ℝ)) 7 =
      (fun _ : ℝ => (0 : ℝ)) 0 *
        Real.exp (-(Params.mk 1000 0 (1/5) (1/10) 0 : Params ℝ).sigma * 7) ∧
    Antitone (fun _ : ℝ => (0 : ℝ)) ∧
    Filter.Tendsto (fun _ : ℝ => (0 : ℝ)) Filter.atTop (nhds 0) := by
  have h := seir_beta_zero (Params.mk 1000 0 (1/5) (1/10) 0 : Params ℝ) rfl
  have h2 := h.2 _ _ _ _ _
    (isSEIRSolution_const (Params.mk 1000 0 (1/5) (1/10) 0 : Params ℝ) 985 10 5)
  exact ⟨h.1 3 _, h2.1 7, h2.2.1 7,
    h2.2.2.1 (by norm_num) (fun _ => le_refl 0), h2.2.2.2 (by norm_num)⟩

/-- Counterexample to C8 as stated: with `beta = 0`, `sigma = 1 ≥ 0`,
`gamma = 0 ≥ 0` there is an exact solution of the system — constant
`S = 985`, `E(t) = 5·e^(-t)`, `I(t) = 15 - 5·e^(-t)`, `R = D = 0`,
matching the app defaults `E(0) = 5`, `I(0) = 10` — whose infected
compartment strictly increases (`I(0) < I(1)`) and does not approach 0
as `t` grows. -/
theorem seir_beta_zero_claim_false :
    pNoTransmission.beta = 0 ∧
    0 ≤ pNoTransmission.sigma ∧ 0 ≤ pNoTransmission.gamma ∧
    IsSEIRSolution pNoTransmission (fun _ => 985) expE expI
      (fun _ => 0) (fun _ => 0) ∧
    expE 0 = 5 ∧ expI 0 = 10 ∧ expI 0 < expI 1 ∧
    ¬ Filter.Tendsto expI Filter.atTop (nhds 0) := by
  refine ⟨rfl, by norm_num [pNoTransmission], by norm_num [pNoTransmission],
    ?_, ?_, ?_, ?_, ?_⟩
  · intro t
    have hbase : HasDerivAt (fun v : ℝ => 5 * Real.exp (-v))
        (5 * (Real.exp (-t) * -1)) t :=
      HasDerivAt.const_mul 5 ((hasDerivAt_id t).neg.exp)
    refine ⟨?_, ?_, ?_, ?_, ?_⟩
    · simpa [seir_model, pNoTransmission] using hasDerivAt_const t (985 : ℝ)
    · show HasDerivAt expE
        ((0 : ℝ) * 985 * expI t / 1000 - 1 * expE t) t
      have heq : (0 : ℝ) * 985 * expI t / 1000 - 1 * expE t =
          5 * (Real.exp (-t) * -1) := by
        simp only [expE]
        ring
      rw [heq]
      exact hbase
    · show HasDerivAt expI ((1 : ℝ) * expE t - 0 * expI t) t
      have heq : (1 : ℝ) * expE t - 0 * expI t =
          0 - 5 * (Real.exp (-t) * -1) := by
        simp only [expE]
        ring
      rw [heq]
      exact (hasDerivAt_const t (15 : ℝ)).sub hbase
    · simpa [seir_model, pNoTransmission] using hasDerivAt_const t (0 : ℝ)
    · simpa [seir_model, pNoTransmission] using hasDerivAt_const t (0 : ℝ)
  · simp [expE]
  · norm_num [expI]
  · have h1 : Real.exp (-1) < 1 := by
      have h := Real.exp_lt_exp.mpr (show (-1 : ℝ) < 0 by norm_num)
      rwa [Real.exp_zero] at h
    simp only [expI, neg_zero, Real.exp_zero]
    linarith [h1]
  · intro hcon
    have h1 : Filter.Tendsto (fun t : ℝ => Real.exp (-t))
        Filter.atTop (nhds 0) := Real.tendsto_exp_neg_atTop_nhds_zero
    have h2 : Filter.Tendsto expI Filter.atTop (nhds (15 - 5 * 0)) :=
      Filter.Tendsto.sub tendsto_const_nhds (h1.const_mul 5)
    have h3 : Filter.Tendsto expI Filter.atTop (nhds 15) := by
      simpa using h2
    have h4 := tendsto_nhds_unique hcon h3
    norm_num at h4

/-- Counterexample to C3 as stated: `overflowInputs` lies inside every
widget range, has `initial_infected + initial_exposed = 2000 > 1000 = N`,
and yet the entry does not fail — it proceeds to the solver with the
(negative-susceptible) initial state `(-1000, 1000, 1000, 0, 0)`. -/
theorem no_invalid_parameter_error :
    widgetRange overflowInputs ∧
    overflowInputs.N <
      overflowInputs.initial_infected + overflowInputs.initial_exposed ∧
    simulationEntry overflowInputs =
      some (SState.mk (-1000) 1000 1000 0 0) := by
  refine ⟨?_, ?_, ?_⟩
  · norm_num [widgetRange, overflowInputs]
  · norm_num [overflowInputs]
  · norm_num [simulationEntry, initialState, overflowInputs]

/-- Claim C3 (amended): the script performs no parameter validation and
defines no `InvalidParameterError`; for every widget-range input the
entry unconditionally proceeds to the solver with the initial state
(never failing), while the widget bounds already rule out `N ≤ 0`,
negative rate constants, and `days ≤ 0` (though not
`initial_infected + initial_exposed > N`, as the counterexample shows). -/
theorem entry_never_fails (i : RawInputs) (h : widgetRange i) :
    0 < i.N ∧ 0 ≤ (runParams i).beta ∧ 0 ≤ (runParams i).sigma ∧
    0 ≤ (runParams i).gamma ∧ 0 ≤ (runParams i).fatality_rate ∧
    0 < i.days ∧ simulationEntry i = some (initialState i) := by
  unfold widgetRange at h
  obtain ⟨hN, -, hb1, -, hinc, -, hinf, -, hfr, -, -, -, -, -, hd, -⟩ := h
  refine ⟨by linarith, ?_, ?_, ?_, hfr, by linarith, rfl⟩
  · show (0 : ℚ) ≤ i.beta
    linarith
  · show (0 : ℚ) ≤ 1 / (i.incubation_days : ℚ)
    have h1 : (1 : ℚ) ≤ (i.incubation_days : ℚ) := by exact_mod_cast hinc
    exact one_div_nonneg.mpr (by linarith)
  · show (0 : ℚ) ≤ 1 / (i.infectious_days : ℚ)
    have h1 : (1 : ℚ) ≤ (i.infectious_days : ℚ) := by exact_mod_cast hinf
    exact one_div_nonneg.mpr (by linarith)

/-- Witness for C3 (amended) at the app's default inputs. -/
theorem entry_never_fails_witness :
    0 < defaultInputs.N ∧ 0 ≤ (runParams defaultInputs).beta ∧
    0 ≤ (runParams defaultInputs).sigma ∧
    0 ≤ (runParams defaultInputs).gamma ∧
    0 ≤ (runParams defaultInputs).fatality_rate ∧
    0 < defaultInputs.days ∧
    simulationEntry defaultInputs = some (initialState defaultInputs) :=
  entry_never_fails defaultInputs (by norm_num [widgetRange, defaultInputs])

/-- Claim C4: whenever a summary is produced, its `peak_infected` is
the truncation of a value that occurs in the sampled `I` sequence and
bounds every sampled `I` value (the maximum; only the value matters, so
tie order is irrelevant), and its `total_deaths` is the truncation of
the last sampled `D` value. -/
theorem summary_formula (Ivals Dvals : List ℚ) (s : Summary)
    (h : summarize Ivals Dvals = some s) :
    (∃ m, m ∈ Ivals ∧ (∀ x ∈ Ivals, x ≤ m) ∧ s.peak_infected = pyInt m) ∧
    (∃ d, Dvals.getLast? = some d ∧ s.total_deaths = pyInt d) := by
  unfold summarize at h
  cases hm : npMax Ivals with
  | none => rw [hm] at h; cases h
  | some m =>
    cases hd : Dvals.getLast? with
    | none => rw [hm, hd] at h; cases h
    | some d =>
      rw [hm, hd] at h
      have hs : Summary.mk (pyInt m) (pyInt d) = s := Option.some.inj h
      subst hs
      obtain ⟨hmem, hub⟩ := npMax_spec Ivals m hm
      exact ⟨⟨m, hmem, hub, rfl⟩, ⟨d, rfl, rfl⟩⟩

/-- Witness for C4 on a concrete sampled trajectory. -/
theorem summary_formula_witness :
    (∃ m, m ∈ [(1 : ℚ), 7/2, 2] ∧ (∀ x ∈ [(1 : ℚ), 7/2, 2], x ≤ m) ∧
      (Summary.mk 3 2 : Summary).peak_infected = pyInt m) ∧
    (∃ d, [(0 : ℚ), 5/2].getLast? = some d ∧
      (Summary.mk 3 2 : Summary).total_deaths = pyInt d) :=
  summary_formula [1, 7/2, 2] [0, 5/2] (Summary.mk 3 2) (by
    have h1 : max (1 : ℚ) (7/2) = 7/2 := max_eq_right (by norm_num)
    have h2 : max (7/2 : ℚ) 2 = 7/2 := max_eq_left (by norm_num)
    norm_num [summarize, npMax, pyInt, h1, h2])

/-- Claim C5: for a positive number of days, the produced trajectory is
sampled exactly at the integer day offsets `0, 1, ..., days - 1` in
strictly increasing order, the state samples are aligned by index to
those times, and `days = 1` yields exactly one sample, at `t = 0`,
equal to the initial condition. -/
theorem trajectory_sampling (days : ℕ) (hdays : 0 < days) (y0 : SState ℚ)
    (res : IvpResult) (hres : SolveIvpOutput days y0 res) :
    res.t = List.range days ∧
    List.Pairwise (· < ·) res.t ∧
    res.t.length = days ∧
    res.y.length = days ∧
    (∀ k, k < days → res.t.get? k = some k) ∧
    (days = 1 → res.t = [0] ∧ res.y = [y0]) := by
  obtain ⟨ht, hlen, hy0⟩ := hres
  have hlt : res.t.length = days := by rw [ht]; exact List.length_range days
  have hylen : res.y.length = days := by rw [hlen, hlt]
  refine ⟨ht, ?_, hlt, hylen, ?_, ?_⟩
  · rw [ht]
    exact List.pairwise_lt_range days
  · intro k hk
    rw [ht, List.get?_eq_getElem?]
    exact List.getElem?_range hk
  · intro h1
    subst h1
    refine ⟨by rw [ht]; rfl, ?_⟩
    obtain ⟨a, ha⟩ := List.length_eq_one.mp hylen
    have h0 := hy0 (by norm_num)
    rw [ha] at h0
    simp only [List.head?_cons, Option.some.injEq] at h0
    rw [ha, h0]

/-- Witness for C5: the one-day trajectory `([0], [y0])` at the default
initial condition. -/
theorem trajectory_sampling_witness :
    (IvpResult.mk [0] [initialState defaultInputs]).t = List.range 1 ∧
    List.Pairwise (· < ·) (IvpResult.mk [0] [initialState defaultInputs]).t ∧
    (IvpResult.mk [0] [initialState defaultInputs]).t.length = 1 ∧
    (IvpResult.mk [0] [initialState defaultInputs]).y.length = 1 ∧
    (∀ k, k < 1 →
      (IvpResult.mk [0] [initialState defaultInputs]).t.get? k = some k) ∧
    (1 = 1 → (IvpResult.mk [0] [initialState defaultInputs]).t = [0] ∧
      (IvpResult.mk [0] [initialState defaultInputs]).y =
        [initialState defaultInputs]) :=
  trajectory_sampling 1 (by norm_num) (initialState defaultInputs)
    (IvpResult.mk [0] [initialState defaultInputs]) ⟨rfl, rfl, fun _ => rfl⟩

/-- Claim C10: if the first sampled `I` value equals the (non-negative
integer) initial infected count, the reported `peak_infected` is at
least that count: the maximum ranges over all samples including the
first, and truncation preserves the inequality for non-negative
values. -/
theorem peak_at_least_initial (Ivals Dvals : List ℚ) (I0 : ℤ) (s : Summary)
    (h0 : 0 ≤ I0) (hhead : Ivals.head? = some (I0 : ℚ))
    (hs : summarize Ivals Dvals = some s) :
    I0 ≤ s.peak_infected := by
  cases Ivals with
  | nil => simp at hhead
  | cons a t =>
    have ha : a = (I0 : ℚ) := by simpa using hhead
    unfold summarize at hs
    cases hd : Dvals.getLast? with
    | none =>
      rw [hd] at hs
      simp only [npMax] at hs
      cases hs
    | some d =>
      rw [hd] at hs
      simp only [npMax, Option.some.injEq] at hs
      subst hs
      have hle : (I0 : ℚ) ≤ t.foldl max a := by
        rw [← ha]
        exact le_foldl_max t a
      show I0 ≤ pyInt (t.foldl max a)
      have hm0 : ¬ t.foldl max a < 0 := by
        intro hneg
        have hcast : (0 : ℚ) ≤ (I0 : ℚ) := by exact_mod_cast h0
        linarith
      unfold pyInt
      rw [if_neg hm0]
      exact Int.le_floor.mpr hle

/-- Witness for C10: first sample `2`, peak sample `7/2`, reported
peak `3 ≥ 2`. -/
theorem peak_at_least_initial_witness :
    (2 : ℤ) ≤ (Summary.mk 3 1 : Summary).peak_infected :=
  peak_at_least_initial [2, 7/2] [0, 1] 2 (Summary.mk 3 1)
    (by decide) (by norm_num)
    (by
      have h1 : max (2 : ℚ) (7/2) = 7/2 := max_eq_right (by norm_num)
      norm_num [summarize, npMax, pyInt, h1])
